import Mathlib

/-!
Shallow embedding of the escape-time core of the fractal viewer
(src/fractals/mandelbrot.js, src/unnamed/part_000, src/unnamed/part_004,
src/viewer.js, src/webgl-renderer.js).

JavaScript floating-point numerics are modelled over the reals; machine
doubles' rounding is out of scope, but the special values produced by
Math.log on non-positive arguments (NaN, minus infinity) are modelled
explicitly by the type JsFloat, because the smooth-coloring code can hit
them.  The escape loops are modelled generically over a linear ordered
field so that the same definitions serve exact evaluation and the real
statements; each loop carries an explicit fuel argument equal to the
iteration cap, which makes the JavaScript while-loop (whose guard contains
iteration < maxIterations) a structural recursion: fuel runs out exactly
when iteration reaches maxIterations.
-/

/-- Model of a JavaScript number as consumed/produced by the smoothing
transform: a finite real, one of the two infinities, or NaN. -/
inductive JsFloat where
  | fin (x : ℝ)
  | posInf
  | negInf
  | nan

/-- JavaScript Math.log on a JsFloat: natural log for positive finite
arguments, -Infinity at 0, NaN for negative arguments, NaN and +Infinity
propagated as in IEEE. -/
noncomputable def jsLog : JsFloat → JsFloat
  | .fin x => if 0 < x then .fin (Real.log x) else if x = 0 then .negInf else .nan
  | .posInf => .posInf
  | .negInf => .nan
  | .nan => .nan

/-- Division of a JavaScript number by a positive finite constant (the
smoothing code only divides by 2 and by Math.log(2), both positive). -/
noncomputable def jsDivPos : JsFloat → ℝ → JsFloat
  | .fin x, c => .fin (x / c)
  | .posInf, _ => .posInf
  | .negInf, _ => .negInf
  | .nan, _ => .nan

/-- Subtraction of a JavaScript number from a finite real (models
`iteration + 1 - nu` where `iteration + 1` is finite). -/
noncomputable def jsSubFromReal (r : ℝ) : JsFloat → JsFloat
  | .fin x => .fin (r - x)
  | .posInf => .negInf
  | .negInf => .posInf
  | .nan => .nan

/-- Smooth coloring transform, src/fractals/mandelbrot.js lines 20-27
(the identical block also appears in the Julia and Burning Ship kernels):
if the point escaped (iteration < maxIterations) compute
`log_zn = Math.log(x*x + y*y) / 2`,
`nu = Math.log(log_zn / Math.log(2)) / Math.log(2)` and return
`iteration + 1 - nu`; otherwise return the iteration count unchanged. -/
noncomputable def smooth (iteration maxIterations : ℕ) (x y : ℝ) : JsFloat :=
  if iteration < maxIterations then
    jsSubFromReal ((iteration : ℝ) + 1)
      (jsDivPos (jsLog (jsDivPos (jsDivPos (jsLog (.fin (x * x + y * y))) 2) (Real.log 2)))
        (Real.log 2))
  else .fin (iteration : ℝ)

/-- Escape loop of MandelbrotFractal.calculate, src/fractals/mandelbrot.js
lines 13-18: `while (x*x + y*y <= 4 && iteration < maxIterations)` step
`x' = x*x - y*y + cx`, `y' = 2*x*y + cy`.  The fuel argument is set to
maxIterations by mandelbrotIterate, so fuel exhaustion coincides with the
guard `iteration < maxIterations` failing. -/
def mandelbrotLoop {K : Type} [LinearOrderedField K] (cx cy : K) (maxIterations : ℕ) :
    ℕ → K → K → ℕ → K × K × ℕ
  | 0, x, y, iteration => (x, y, iteration)
  | fuel + 1, x, y, iteration =>
    if x * x + y * y ≤ 4 ∧ iteration < maxIterations then
      mandelbrotLoop cx cy maxIterations fuel (x * x - y * y + cx) (2 * x * y + cy)
        (iteration + 1)
    else (x, y, iteration)

/-- Final orbit state (x, y, rawIterationCount) of MandelbrotFractal.calculate,
started from x = y = 0. -/
def mandelbrotIterate {K : Type} [LinearOrderedField K] (cx cy : K) (maxIterations : ℕ) :
    K × K × ℕ :=
  mandelbrotLoop cx cy maxIterations maxIterations 0 0 0

/-- MandelbrotFractal.calculate, src/fractals/mandelbrot.js lines 8-28:
raw escape loop followed by the inline smooth-coloring block. -/
noncomputable def mandelbrotCalculate (cx cy : ℝ) (maxIterations : ℕ) : JsFloat :=
  smooth (mandelbrotIterate cx cy maxIterations).2.2 maxIterations
    (mandelbrotIterate cx cy maxIterations).1 (mandelbrotIterate cx cy maxIterations).2.1

/-- Escape loop of JuliaFractal.calculate, src/fractals/mandelbrot.js lines
99-104: same recurrence with the per-instance constant
(viewer.juliaReal, viewer.juliaImag), started from the pixel point. -/
def juliaLoop {K : Type} [LinearOrderedField K] (cReal cImag : K) (maxIterations : ℕ) :
    ℕ → K → K → ℕ → K × K × ℕ
  | 0, x, y, iteration => (x, y, iteration)
  | fuel + 1, x, y, iteration =>
    if x * x + y * y ≤ 4 ∧ iteration < maxIterations then
      juliaLoop cReal cImag maxIterations fuel (x * x - y * y + cReal) (2 * x * y + cImag)
        (iteration + 1)
    else (x, y, iteration)

/-- Final orbit state of JuliaFractal.calculate started from (zx, zy). -/
def juliaIterate {K : Type} [LinearOrderedField K] (zx zy cReal cImag : K)
    (maxIterations : ℕ) : K × K × ℕ :=
  juliaLoop cReal cImag maxIterations maxIterations zx zy 0

/-- JuliaFractal.calculate, src/fractals/mandelbrot.js lines 94-114. -/
noncomputable def juliaCalculate (zx zy cReal cImag : ℝ) (maxIterations : ℕ) : JsFloat :=
  smooth (juliaIterate zx zy cReal cImag maxIterations).2.2 maxIterations
    (juliaIterate zx zy cReal cImag maxIterations).1
    (juliaIterate zx zy cReal cImag maxIterations).2.1

/-- Escape loop of JuliaFractal.calculateHighPrecision, src/fractals/
mandelbrot.js lines 128-139: `while (iteration < maxIterations)` compute
the magnitude, `if (magnitude.gt(four)) break`, then the same step.  The
Decimal.js values are modelled by the same field as the native numbers:
the claim under study is precisely that only the backing arithmetic type
changes. -/
def juliaHighPrecisionLoop {K : Type} [LinearOrderedField K] (cReal cImag : K)
    (maxIterations : ℕ) : ℕ → K → K → ℕ → K × K × ℕ
  | 0, x, y, iteration => (x, y, iteration)
  | fuel + 1, x, y, iteration =>
    if iteration < maxIterations then
      if 4 < x * x + y * y then (x, y, iteration)
      else
        juliaHighPrecisionLoop cReal cImag maxIterations fuel (x * x - y * y + cReal)
          (2 * x * y + cImag) (iteration + 1)
    else (x, y, iteration)

/-- Final orbit state of JuliaFractal.calculateHighPrecision. -/
def juliaHighPrecisionIterate {K : Type} [LinearOrderedField K] (zx zy cReal cImag : K)
    (maxIterations : ℕ) : K × K × ℕ :=
  juliaHighPrecisionLoop cReal cImag maxIterations maxIterations zx zy 0

/-- JuliaFractal.calculateHighPrecision, src/fractals/mandelbrot.js lines
117-152: Decimal loop, then the magnitude is converted with toNumber and
fed to the same Math.log smoothing block. -/
noncomputable def juliaCalculateHighPrecision (zx zy cReal cImag : ℝ)
    (maxIterations : ℕ) : JsFloat :=
  smooth (juliaHighPrecisionIterate zx zy cReal cImag maxIterations).2.2 maxIterations
    (juliaHighPrecisionIterate zx zy cReal cImag maxIterations).1
    (juliaHighPrecisionIterate zx zy cReal cImag maxIterations).2.1

/-- Escape loop of BurningShipFractal.calculate, src/unnamed/part_000 lines
13-21: identical to Mandelbrot except `x = Math.abs(x); y = Math.abs(y)`
before each squaring step. -/
def burningShipLoop {K : Type} [LinearOrderedField K] (cx cy : K) (maxIterations : ℕ) :
    ℕ → K → K → ℕ → K × K × ℕ
  | 0, x, y, iteration => (x, y, iteration)
  | fuel + 1, x, y, iteration =>
    if x * x + y * y ≤ 4 ∧ iteration < maxIterations then
      burningShipLoop cx cy maxIterations fuel (|x| * |x| - |y| * |y| + cx)
        (2 * |x| * |y| + cy) (iteration + 1)
    else (x, y, iteration)

/-- Final orbit state of BurningShipFractal.calculate, started from x = y = 0. -/
def burningShipIterate {K : Type} [LinearOrderedField K] (cx cy : K) (maxIterations : ℕ) :
    K × K × ℕ :=
  burningShipLoop cx cy maxIterations maxIterations 0 0 0

/-- BurningShipFractal.calculate, src/unnamed/part_000 lines 8-31. -/
noncomputable def burningShipCalculate (cx cy : ℝ) (maxIterations : ℕ) : JsFloat :=
  smooth (burningShipIterate cx cy maxIterations).2.2 maxIterations
    (burningShipIterate cx cy maxIterations).1 (burningShipIterate cx cy maxIterations).2.1

/-- Iteration loop of the Mandelbrot fragment shader, src/webgl-renderer.js
lines 162-170: `for (int i = 0; i < 1000; i++)` with
`if (i >= u_maxIterations) break; if (x*x + y*y > 4.0) break;` then the
Mandelbrot step.  The hard 1000-step bound of the GLSL for-loop is the
fuel. -/
def mandelbrotShaderLoop {K : Type} [LinearOrderedField K] (cx cy : K) (maxIterations : ℕ) :
    ℕ → K → K → ℕ → K × K × ℕ
  | 0, x, y, iteration => (x, y, iteration)
  | fuel + 1, x, y, iteration =>
    if iteration < maxIterations then
      if 4 < x * x + y * y then (x, y, iteration)
      else
        mandelbrotShaderLoop cx cy maxIterations fuel (x * x - y * y + cx) (2 * x * y + cy)
          (iteration + 1)
    else (x, y, iteration)

/-- Final orbit state of the Mandelbrot fragment shader's iteration loop
(hard-capped at 1000 steps by the GLSL for-loop). -/
def mandelbrotShaderIterate {K : Type} [LinearOrderedField K] (cx cy : K)
    (maxIterations : ℕ) : K × K × ℕ :=
  mandelbrotShaderLoop cx cy maxIterations 1000 0 0 0

/-- Precision selector, src/fractals/mandelbrot.js line 188:
`useArbitraryPrecision = zoom > Math.pow(2, 20)`, computed once per render
before the pixel loop. -/
def needsHighPrecision (zoomFactor : ℚ) : Bool :=
  decide (zoomFactor > 2 ^ 20)

/-- WebGLRenderer.render, src/webgl-renderer.js lines 367-446: returns
false when the renderer is not initialized or the fractal type is not one
of the three shader families or the shader program fails to build
(programOk models the outcome of createProgram, an external GPU
capability); otherwise it draws and returns true.  The maxIterations and
zoom parameters are passed to the shader as uniforms but play no role in
the return value. -/
def webglRender (initialized programOk : Bool) (fractalType : String)
    (maxIterations : ℕ) (zoom : ℚ) : Bool :=
  if !initialized then false
  else if fractalType = "mandelbrot" ∨ fractalType = "julia" ∨ fractalType = "burning_ship"
    then programOk
  else false

/-- Which execution path a render ends up on. -/
inductive RenderMode where
  | gpu
  | cpuNative
  | cpuHighPrecision
  deriving DecidableEq

/-- MandelbrotFractal.render, src/fractals/mandelbrot.js lines 30-85: try
the WebGL renderer first (when initialized); on success the frame is done
on the GPU, otherwise fall back to the Canvas2D loop, whose every pixel
calls this.calculate — the native float kernel, with no
arbitrary-precision alternative. -/
def mandelbrotRenderMode (webglInitialized programOk : Bool) (maxIterations : ℕ)
    (zoom : ℚ) : RenderMode :=
  if webglInitialized && webglRender webglInitialized programOk "mandelbrot" maxIterations zoom
    then .gpu
  else .cpuNative

/-- JuliaFractal.render, src/fractals/mandelbrot.js lines 154-233: try
WebGL first; otherwise the Canvas2D loop picks, for every pixel, the
high-precision kernel when `useArbitraryPrecision && Decimal` (line 205)
and the native kernel otherwise — with no error path when Decimal is
missing. -/
def juliaRenderMode (webglInitialized programOk decimalAvailable : Bool)
    (maxIterations : ℕ) (zoom : ℚ) : RenderMode :=
  if webglInitialized && webglRender webglInitialized programOk "julia" maxIterations zoom
    then .gpu
  else if needsHighPrecision zoom && decimalAvailable then .cpuHighPrecision
  else .cpuNative

/-- The fractal registry built in the FractalViewer constructor
(src/unnamed/part_004, `this.fractals = { mandelbrot: ..., menger: ... }`). -/
def fractalRegistry : List String :=
  ["mandelbrot", "julia", "burning_ship", "koch", "sierpinski", "dragon", "barnsley", "menger"]

/-- Outcome of FractalViewer.render for a given fractal-type identifier. -/
inductive ViewerRenderOutcome where
  | errorUnknownType
  | rendered (fractalType : String)
  deriving DecidableEq

/-- FractalViewer.render, src/viewer.js lines 580-608: look the fractal
type up in the registry; if absent, log a descriptive error and abort
before any pixel computation; otherwise render that fractal. -/
def viewerRender (fractalType : String) : ViewerRenderOutcome :=
  if fractalType ∈ fractalRegistry then .rendered fractalType else .errorUnknownType

/-- The color-scheme method selected by the switch in
FractalViewer.prototype.getColor. -/
inductive ColorMethod where
  | default
  | cosine
  | continuous
  | hsl
  | golden
  | cubehelix
  | grayscale
  | bezier
  | complementary
  | triadic
  | stripe
  deriving DecidableEq

/-- The color-scheme identifiers the getColor switch recognizes. -/
def knownColorSchemes : List String :=
  ["default", "cosine", "continuous", "hsl", "golden", "cubehelix", "grayscale", "bezier",
    "complementary", "triadic", "stripe"]

/-- The switch of FractalViewer.prototype.getColor, src/unnamed/part_004
lines 8-33: map the scheme identifier to the palette method, with the
`default:` case falling back to getColorDefault. -/
def dispatchColorScheme (scheme : String) : ColorMethod :=
  if scheme = "default" then .default
  else if scheme = "cosine" then .cosine
  else if scheme = "continuous" then .continuous
  else if scheme = "hsl" then .hsl
  else if scheme = "golden" then .golden
  else if scheme = "cubehelix" then .cubehelix
  else if scheme = "grayscale" then .grayscale
  else if scheme = "bezier" then .bezier
  else if scheme = "complementary" then .complementary
  else if scheme = "triadic" then .triadic
  else if scheme = "stripe" then .stripe
  else .default

/-- An RGB color object as stored on the viewer (e.g. cosineBaseColor). -/
structure RGBColor where
  r : ℝ
  g : ℝ
  b : ℝ

/-- The slice of FractalViewer state read by the color-scheme methods
(src/unnamed/part_004; defaults are set in the FractalViewer constructor). -/
structure ColorState where
  maxIterations : ℕ
  colorScheme : String
  cosineBaseColor : RGBColor
  cosineAccentColor : RGBColor
  hslStartHue : ℝ
  hslEndHue : ℝ
  bezierColor0 : RGBColor
  bezierColor1 : RGBColor
  bezierColor2 : RGBColor
  bezierColor3 : RGBColor
  complementaryHue : ℝ
  triadicHue : ℝ
  cubehelixRotations : ℝ

/-- JavaScript remainder operator on numbers: a % b = a - b * trunc(a / b)
(truncation toward zero), for the finite values the palettes feed it. -/
noncomputable def jsMod (a b : ℝ) : ℝ :=
  a - b * ((if a / b < 0 then ⌈a / b⌉ else ⌊a / b⌋ : ℤ) : ℝ)

/-- FractalViewer.prototype.hslToRgb, src/unnamed/part_004 lines 107-134
(JavaScript Math.round(x) is floor(x + 1/2), which is Mathlib's round). -/
noncomputable def hslToRgb (h s l : ℝ) : ℤ × ℤ × ℤ :=
  let h := h / 360
  let s := s / 100
  let l := l / 100
  if s = 0 then
    (round (l * 255), round (l * 255), round (l * 255))
  else
    let hue2rgb : ℝ → ℝ → ℝ → ℝ := fun p q t =>
      let t := if t < 0 then t + 1 else t
      let t := if t > 1 then t - 1 else t
      if t < 1 / 6 then p + (q - p) * 6 * t
      else if t < 1 / 2 then q
      else if t < 2 / 3 then p + (q - p) * (2 / 3 - t) * 6
      else p
    let q := if l < 0.5 then l * (1 + s) else l + s - l * s
    let p := 2 * l - q
    (round (hue2rgb p q (h + 1 / 3) * 255), round (hue2rgb p q h * 255),
      round (hue2rgb p q (h - 1 / 3) * 255))

/-- FractalViewer.prototype.getColorDefault, src/unnamed/part_004 lines 36-43. -/
noncomputable def getColorDefault (st : ColorState) (iteration : ℝ) : ℤ × ℤ × ℤ :=
  let t := iteration / (st.maxIterations : ℝ)
  (⌊9 * (1 - t) * t * t * t * 255⌋, ⌊15 * (1 - t) * (1 - t) * t * t * 255⌋,
    ⌊(8.5 : ℝ) * (1 - t) * (1 - t) * (1 - t) * t * 255⌋)

/-- FractalViewer.prototype.getColorCosine, src/unnamed/part_004 lines 45-90. -/
noncomputable def getColorCosine (st : ColorState) (iteration : ℝ) : ℤ × ℤ × ℤ :=
  let t := iteration / (st.maxIterations : ℝ)
  let baseR := st.cosineBaseColor.r / 255
  let baseG := st.cosineBaseColor.g / 255
  let baseB := st.cosineBaseColor.b / 255
  let accentR := st.cosineAccentColor.r / 255
  let accentG := st.cosineAccentColor.g / 255
  let accentB := st.cosineAccentColor.b / 255
  let a0 := (baseR + accentR) / 2
  let a1 := (baseG + accentG) / 2
  let a2 := (baseB + accentB) / 2
  let b0 := (accentR - baseR) / 2
  let b1 := (accentG - baseG) / 2
  let b2 := (accentB - baseB) / 2
  let r := ⌊255 * (a0 + b0 * Real.cos (2 * Real.pi * (1 * t + 0)))⌋
  let g := ⌊255 * (a1 + b1 * Real.cos (2 * Real.pi * (1 * t + 0.33)))⌋
  let bVal := ⌊255 * (a2 + b2 * Real.cos (2 * Real.pi * (1 * t + 0.67)))⌋
  (max 0 (min 255 r), max 0 (min 255 g), max 0 (min 255 bVal))

/-- FractalViewer.prototype.getColorContinuous, src/unnamed/part_004 lines 92-105. -/
noncomputable def getColorContinuous (st : ColorState) (iteration : ℝ) : ℤ × ℤ × ℤ :=
  let hue := jsMod (iteration * 3) 360
  let saturation := 70 + 30 * Real.sin (iteration * 0.1)
  let lightness := 40 + 20 * Real.cos (iteration * 0.15)
  hslToRgb hue saturation lightness

/-- FractalViewer.prototype.getColorHSL, src/unnamed/part_004 lines 136-143. -/
noncomputable def getColorHSL (st : ColorState) (iteration : ℝ) : ℤ × ℤ × ℤ :=
  let t := iteration / (st.maxIterations : ℝ)
  let hue := st.hslStartHue + (st.hslEndHue - st.hslStartHue) * t
  hslToRgb hue 80 50

/-- FractalViewer.prototype.getColorGolden, src/unnamed/part_004 lines 145-152. -/
noncomputable def getColorGolden (st : ColorState) (iteration : ℝ) : ℤ × ℤ × ℤ :=
  let phi : ℝ := 1.618033988749895
  let hue := jsMod (iteration * phi * 137.508) 360
  hslToRgb hue 70 50

/-- FractalViewer.prototype.getColorCubehelix, src/unnamed/part_004 lines 154-162. -/
noncomputable def getColorCubehelix (st : ColorState) (iteration : ℝ) : ℤ × ℤ × ℤ :=
  let t := iteration / (st.maxIterations : ℝ)
  let start : ℝ := 0.5
  let hue := 360 * (start / 3 + st.cubehelixRotations * t)
  let saturation := 50 + 50 * t
  let lightness := 20 + 60 * t
  hslToRgb hue saturation lightness

/-- FractalViewer.prototype.getColorGrayscale, src/unnamed/part_004 lines 164-169. -/
noncomputable def getColorGrayscale (st : ColorState) (iteration : ℝ) : ℤ × ℤ × ℤ :=
  let t := iteration / (st.maxIterations : ℝ)
  let intensity := ⌊255 * Real.sqrt t⌋
  (intensity, intensity, intensity)

/-- FractalViewer.prototype.getColorBezier, src/unnamed/part_004 lines 171-188. -/
noncomputable def getColorBezier (st : ColorState) (iteration : ℝ) : ℤ × ℤ × ℤ :=
  let t := iteration / (st.maxIterations : ℝ)
  let s := 1 - t
  let r := s * s * s * st.bezierColor0.r + 3 * s * s * t * st.bezierColor1.r +
    3 * s * t * t * st.bezierColor2.r + t * t * t * st.bezierColor3.r
  let g := s * s * s * st.bezierColor0.g + 3 * s * s * t * st.bezierColor1.g +
    3 * s * t * t * st.bezierColor2.g + t * t * t * st.bezierColor3.g
  let b := s * s * s * st.bezierColor0.b + 3 * s * s * t * st.bezierColor1.b +
    3 * s * t * t * st.bezierColor2.b + t * t * t * st.bezierColor3.b
  (⌊r⌋, ⌊g⌋, ⌊b⌋)

/-- FractalViewer.prototype.getColorComplementary, src/unnamed/part_004 lines 190-198. -/
noncomputable def getColorComplementary (st : ColorState) (iteration : ℝ) : ℤ × ℤ × ℤ :=
  let t := iteration / (st.maxIterations : ℝ)
  let hue := if t < 0.5 then st.complementaryHue else jsMod (st.complementaryHue + 180) 360
  let lightness := 40 + 20 * Real.sin (t * Real.pi * 4)
  hslToRgb hue 80 lightness

/-- FractalViewer.prototype.getColorTriadic, src/unnamed/part_004 lines 200-213. -/
noncomputable def getColorTriadic (st : ColorState) (iteration : ℝ) : ℤ × ℤ × ℤ :=
  let t := iteration / (st.maxIterations : ℝ)
  let hue :=
    if t < 0.33 then st.triadicHue
    else if t < 0.66 then jsMod (st.triadicHue + 120) 360
    else jsMod (st.triadicHue + 240) 360
  let lightness := 45 + 15 * Real.sin (t * Real.pi * 6)
  hslToRgb hue 70 lightness

/-- FractalViewer.prototype.getColorStripe, src/unnamed/part_004 lines 215-228. -/
noncomputable def getColorStripe (st : ColorState) (iteration : ℝ) : ℤ × ℤ × ℤ :=
  let t := iteration / (st.maxIterations : ℝ)
  let bandIndex : ℤ := ⌊t * 8⌋
  let bandT := t * 8 - (bandIndex : ℝ)
  let hue := jsMod ((bandIndex : ℝ) * 45) 360
  let saturation := 70 + 20 * Real.sin (bandT * Real.pi)
  let lightness := 40 + 20 * bandT
  hslToRgb hue saturation lightness

/-- FractalViewer.prototype.getColor, src/unnamed/part_004 lines 3-34:
interior points (iteration >= maxIterations) are painted black before the
scheme switch runs; otherwise dispatch on the scheme identifier. -/
noncomputable def getColor (st : ColorState) (iteration : ℝ) : ℤ × ℤ × ℤ :=
  if iteration ≥ (st.maxIterations : ℝ) then (0, 0, 0)
  else
    match dispatchColorScheme st.colorScheme with
    | .default => getColorDefault st iteration
    | .cosine => getColorCosine st iteration
    | .continuous => getColorContinuous st iteration
    | .hsl => getColorHSL st iteration
    | .golden => getColorGolden st iteration
    | .cubehelix => getColorCubehelix st iteration
    | .grayscale => getColorGrayscale st iteration
    | .bezier => getColorBezier st iteration
    | .complementary => getColorComplementary st iteration
    | .triadic => getColorTriadic st iteration
    | .stripe => getColorStripe st iteration

/-- The order in which MandelbrotFractal.render's Canvas2D fallback visits
pixels, src/fractals/mandelbrot.js lines 61-74: the outer loop walks rows
py = 0 .. height-1, the inner loop columns px = 0 .. width-1. -/
def pixelOrder (width height : ℕ) : List (ℕ × ℕ) :=
  (List.range height).flatMap fun py => (List.range width).map fun px => (py, px)

/-- Strict lexicographic order on (row, column) pixel coordinates. -/
def pixelBefore (p q : ℕ × ℕ) : Prop :=
  p.1 < q.1 ∨ (p.1 = q.1 ∧ p.2 < q.2)

/-- The sequence of percentages MandelbrotFractal.render reports through
viewer.updateProgress, src/fractals/mandelbrot.js lines 76-83: after each
row py with py % 20 == 0 (chunkSize = 20) it reports (py / height) * 100,
and after the last row it reports 100. -/
def progressTrace (height : ℕ) : List ℚ :=
  (((List.range height).filter fun py => py % 20 == 0).map
    fun py : ℕ => (py : ℚ) / (height : ℚ) * 100) ++ [100]

theorem smooth_cap (iteration maxIterations : ℕ) (x y : ℝ)
    (h : ¬ iteration < maxIterations) :
    smooth iteration maxIterations x y = .fin (iteration : ℝ) :=
  if_neg h

theorem smooth_nonpos (iteration maxIterations : ℕ) (x y : ℝ)
    (h : iteration < maxIterations) (hm : x * x + y * y ≤ 0) :
    smooth iteration maxIterations x y = .nan := by
  have hm0 : x * x + y * y = 0 := le_antisymm hm (add_nonneg (mul_self_nonneg x) (mul_self_nonneg y))
  rw [smooth, if_pos h, hm0]
  simp [jsLog, jsDivPos, jsSubFromReal]

theorem smooth_escaped (iteration maxIterations : ℕ) (x y : ℝ)
    (h : iteration < maxIterations) (hm : 4 < x * x + y * y) :
    smooth iteration maxIterations x y =
      .fin ((iteration : ℝ) + 1 -
        Real.log (Real.log (x * x + y * y) / 2 / Real.log 2) / Real.log 2) := by
  have h0 : (0 : ℝ) < x * x + y * y := lt_trans (by norm_num) hm
  have hlog2 : (0 : ℝ) < Real.log 2 := Real.log_pos (by norm_num)
  have hlog4 : Real.log 4 = 2 * Real.log 2 := by
    rw [show (4 : ℝ) = 2 ^ 2 by norm_num, Real.log_pow]
    push_cast
    ring
  have h4 : Real.log 4 < Real.log (x * x + y * y) := Real.log_lt_log (by norm_num) hm
  have harg : (0 : ℝ) < Real.log (x * x + y * y) / 2 / Real.log 2 := by
    have hpos : (0 : ℝ) < Real.log (x * x + y * y) := by nlinarith
    exact div_pos (div_pos hpos two_pos) hlog2
  have e1 : jsLog (.fin (x * x + y * y)) = .fin (Real.log (x * x + y * y)) := by
    simp only [jsLog]
    rw [if_pos h0]
  have e4 : jsLog (.fin (Real.log (x * x + y * y) / 2 / Real.log 2)) =
      .fin (Real.log (Real.log (x * x + y * y) / 2 / Real.log 2)) := by
    simp only [jsLog]
    rw [if_pos harg]
  rw [smooth, if_pos h, e1]
  rw [show jsDivPos (.fin (Real.log (x * x + y * y))) 2 =
    .fin (Real.log (x * x + y * y) / 2) from rfl]
  rw [show jsDivPos (.fin (Real.log (x * x + y * y) / 2)) (Real.log 2) =
    .fin (Real.log (x * x + y * y) / 2 / Real.log 2) from rfl]
  rw [e4]
  rfl

theorem smooth_nu_pos (m : ℝ) (hm : 4 < m) :
    0 < Real.log (Real.log m / 2 / Real.log 2) / Real.log 2 := by
  have hlog2 : (0 : ℝ) < Real.log 2 := Real.log_pos (by norm_num)
  have hlog4 : Real.log 4 = 2 * Real.log 2 := by
    rw [show (4 : ℝ) = 2 ^ 2 by norm_num, Real.log_pow]
    push_cast
    ring
  have h4 : Real.log 4 < Real.log m := Real.log_lt_log (by norm_num) hm
  have h1 : 1 < Real.log m / 2 / Real.log 2 := by
    rw [lt_div_iff hlog2, one_mul, lt_div_iff (by norm_num : (0:ℝ) < 2)]
    nlinarith
  exact div_pos (Real.log_pos h1) hlog2

theorem mandelbrotLoop_stuck {K : Type} [LinearOrderedField K] (cx cy : K)
    (maxIterations fuel : ℕ) (x y : K) (iteration : ℕ) (h : ¬ iteration < maxIterations) :
    mandelbrotLoop cx cy maxIterations fuel x y iteration = (x, y, iteration) := by
  cases fuel with
  | zero => rfl
  | succ fuel =>
    simp only [mandelbrotLoop]
    rw [if_neg fun hc => h hc.2]

theorem mandelbrotLoop_iter_le {K : Type} [LinearOrderedField K] (cx cy : K)
    (maxIterations : ℕ) :
    ∀ (fuel : ℕ) (x y : K) (iteration : ℕ), iteration ≤ maxIterations →
      (mandelbrotLoop cx cy maxIterations fuel x y iteration).2.2 ≤ maxIterations := by
  intro fuel
  induction fuel with
  | zero => intro x y iteration h; exact h
  | succ fuel ih =>
    intro x y iteration h
    simp only [mandelbrotLoop]
    by_cases hc : x * x + y * y ≤ 4 ∧ iteration < maxIterations
    · rw [if_pos hc]
      exact ih _ _ _ hc.2
    · rw [if_neg hc]
      exact h

theorem mandelbrotLoop_escape {K : Type} [LinearOrderedField K] (cx cy : K)
    (maxIterations : ℕ) :
    ∀ (fuel : ℕ) (x y : K) (iteration : ℕ), maxIterations ≤ iteration + fuel →
      (mandelbrotLoop cx cy maxIterations fuel x y iteration).2.2 < maxIterations →
      4 < (mandelbrotLoop cx cy maxIterations fuel x y iteration).1 *
            (mandelbrotLoop cx cy maxIterations fuel x y iteration).1 +
          (mandelbrotLoop cx cy maxIterations fuel x y iteration).2.1 *
            (mandelbrotLoop cx cy maxIterations fuel x y iteration).2.1 := by
  intro fuel
  induction fuel with
  | zero =>
    intro x y iteration hle hlt
    simp only [mandelbrotLoop] at hlt
    omega
  | succ fuel ih =>
    intro x y iteration hle hlt
    simp only [mandelbrotLoop] at hlt ⊢
    by_cases hc : x * x + y * y ≤ 4 ∧ iteration < maxIterations
    · rw [if_pos hc] at hlt ⊢
      exact ih _ _ _ (by omega) hlt
    · rw [if_neg hc] at hlt ⊢
      exact lt_of_not_le fun hA => hc ⟨hA, hlt⟩

theorem mandelbrotIterate_escape {K : Type} [LinearOrderedField K] (cx cy : K)
    (maxIterations : ℕ)
    (h : (mandelbrotIterate cx cy maxIterations).2.2 < maxIterations) :
    4 < (mandelbrotIterate cx cy maxIterations).1 * (mandelbrotIterate cx cy maxIterations).1 +
        (mandelbrotIterate cx cy maxIterations).2.1 *
          (mandelbrotIterate cx cy maxIterations).2.1 :=
  mandelbrotLoop_escape cx cy maxIterations maxIterations 0 0 0 (by omega) h

theorem mandelbrotIterate_le {K : Type} [LinearOrderedField K] (cx cy : K)
    (maxIterations : ℕ) :
    (mandelbrotIterate cx cy maxIterations).2.2 ≤ maxIterations :=
  mandelbrotLoop_iter_le cx cy maxIterations maxIterations 0 0 0 (by omega)

theorem burningShipLoop_escape {K : Type} [LinearOrderedField K] (cx cy : K)
    (maxIterations : ℕ) :
    ∀ (fuel : ℕ) (x y : K) (iteration : ℕ), maxIterations ≤ iteration + fuel →
      (burningShipLoop cx cy maxIterations fuel x y iteration).2.2 < maxIterations →
      4 < (burningShipLoop cx cy maxIterations fuel x y iteration).1 *
            (burningShipLoop cx cy maxIterations fuel x y iteration).1 +
          (burningShipLoop cx cy maxIterations fuel x y iteration).2.1 *
            (burningShipLoop cx cy maxIterations fuel x y iteration).2.1 := by
  intro fuel
  induction fuel with
  | zero =>
    intro x y iteration hle hlt
    simp only [burningShipLoop] at hlt
    omega
  | succ fuel ih =>
    intro x y iteration hle hlt
    simp only [burningShipLoop] at hlt ⊢
    by_cases hc : x * x + y * y ≤ 4 ∧ iteration < maxIterations
    · rw [if_pos hc] at hlt ⊢
      exact ih _ _ _ (by omega) hlt
    · rw [if_neg hc] at hlt ⊢
      exact lt_of_not_le fun hA => hc ⟨hA, hlt⟩

theorem burningShipIterate_escape {K : Type} [LinearOrderedField K] (cx cy : K)
    (maxIterations : ℕ)
    (h : (burningShipIterate cx cy maxIterations).2.2 < maxIterations) :
    4 < (burningShipIterate cx cy maxIterations).1 * (burningShipIterate cx cy maxIterations).1 +
        (burningShipIterate cx cy maxIterations).2.1 *
          (burningShipIterate cx cy maxIterations).2.1 :=
  burningShipLoop_escape cx cy maxIterations maxIterations 0 0 0 (by omega) h

theorem juliaLoop_eq_highPrecision {K : Type} [LinearOrderedField K] (cReal cImag : K)
    (maxIterations : ℕ) :
    ∀ (fuel : ℕ) (x y : K) (iteration : ℕ),
      juliaLoop cReal cImag maxIterations fuel x y iteration =
        juliaHighPrecisionLoop cReal cImag maxIterations fuel x y iteration := by
  intro fuel
  induction fuel with
  | zero => intro x y iteration; rfl
  | succ fuel ih =>
    intro x y iteration
    simp only [juliaLoop, juliaHighPrecisionLoop]
    by_cases hit : iteration < maxIterations
    · by_cases hmag : 4 < x * x + y * y
      · rw [if_neg fun hc => absurd hc.1 (not_le.mpr hmag), if_pos hit, if_pos hmag]
      · rw [if_pos ⟨not_lt.mp hmag, hit⟩, if_pos hit, if_neg hmag, ih]
    · rw [if_neg fun hc => hit hc.2, if_neg hit]

theorem mandelbrotLoop_fuel_add {K : Type} [LinearOrderedField K] (cx cy : K)
    (maxIterations : ℕ) :
    ∀ (fuel k : ℕ) (x y : K) (iteration : ℕ), maxIterations ≤ iteration + fuel →
      mandelbrotLoop cx cy maxIterations (fuel + k) x y iteration =
        mandelbrotLoop cx cy maxIterations fuel x y iteration := by
  intro fuel
  induction fuel with
  | zero =>
    intro k x y iteration h
    rw [Nat.zero_add, mandelbrotLoop_stuck cx cy maxIterations k x y iteration (by omega)]
    rfl
  | succ fuel ih =>
    intro k x y iteration h
    rw [show fuel + 1 + k = (fuel + k) + 1 by omega]
    simp only [mandelbrotLoop]
    by_cases hc : x * x + y * y ≤ 4 ∧ iteration < maxIterations
    · rw [if_pos hc, if_pos hc, ih k _ _ _ (by omega)]
    · rw [if_neg hc, if_neg hc]

theorem mandelbrotShaderLoop_eq {K : Type} [LinearOrderedField K] (cx cy : K)
    (maxIterations : ℕ) :
    ∀ (fuel : ℕ) (x y : K) (iteration : ℕ),
      mandelbrotShaderLoop cx cy maxIterations fuel x y iteration =
        mandelbrotLoop cx cy (min maxIterations (iteration + fuel)) fuel x y iteration := by
  intro fuel
  induction fuel with
  | zero => intro x y iteration; rfl
  | succ fuel ih =>
    intro x y iteration
    simp only [mandelbrotShaderLoop, mandelbrotLoop]
    by_cases hit : iteration < maxIterations
    · by_cases hmag : 4 < x * x + y * y
      · rw [if_pos hit, if_pos hmag, if_neg fun hc => absurd hc.1 (not_le.mpr hmag)]
      · rw [if_pos hit, if_neg hmag,
          if_pos ⟨not_lt.mp hmag, lt_min hit (by omega)⟩, ih]
        rw [show iteration + (fuel + 1) = iteration + 1 + fuel by omega]
    · rw [if_neg hit, if_neg fun hc => hit (lt_of_lt_of_le hc.2 (min_le_left _ _))]

theorem getColor_interior (st : ColorState) (iteration : ℝ)
    (h : (st.maxIterations : ℝ) ≤ iteration) :
    getColor st iteration = (0, 0, 0) := by
  rw [getColor, if_pos h]

/-- C1: the claim asserts that the smoothing transform clamps a non-positive
final magnitude to the raw integer count.  The code has no such guard: at
rawIterationCount 3, maxIterations 10 and final orbit (0, 0) the transform
takes Math.log(0) = -Infinity and produces NaN, not the raw count 3. -/
theorem c1_counterexample :
    smooth 3 10 0 0 = JsFloat.nan ∧ JsFloat.nan ≠ JsFloat.fin 3 :=
  ⟨smooth_nonpos 3 10 0 0 (by norm_num) (by norm_num),
    fun h => JsFloat.noConfusion h⟩

/-- C1 (amended): the transform has no clamp — for every escaped raw count
with non-positive final magnitude it yields NaN — but such inputs can never
reach it from the kernel, because whenever the escape loop exits with
rawIterationCount < maxIterations the final magnitude exceeds 4. -/
theorem c1_amended :
    (∀ (iteration maxIterations : ℕ) (x y : ℝ), iteration < maxIterations →
      x * x + y * y ≤ 0 → smooth iteration maxIterations x y = JsFloat.nan) ∧
    (∀ (cx cy : ℝ) (maxIterations : ℕ),
      (mandelbrotIterate cx cy maxIterations).2.2 < maxIterations →
      4 < (mandelbrotIterate cx cy maxIterations).1 *
            (mandelbrotIterate cx cy maxIterations).1 +
          (mandelbrotIterate cx cy maxIterations).2.1 *
            (mandelbrotIterate cx cy maxIterations).2.1) :=
  ⟨fun iteration maxIterations x y h hm => smooth_nonpos iteration maxIterations x y h hm,
    fun cx cy maxIterations h => mandelbrotIterate_escape cx cy maxIterations h⟩

/-- C1 witness: both parts of the amended statement at concrete inputs. -/
theorem c1_witness :
    smooth 5 9 0 0 = JsFloat.nan ∧
    4 < (mandelbrotIterate (3 : ℝ) 0 2).1 * (mandelbrotIterate (3 : ℝ) 0 2).1 +
        (mandelbrotIterate (3 : ℝ) 0 2).2.1 * (mandelbrotIterate (3 : ℝ) 0 2).2.1 :=
  ⟨c1_amended.1 5 9 0 0 (by norm_num) (by norm_num),
    c1_amended.2 3 0 2 (by norm_num [mandelbrotIterate, mandelbrotLoop])⟩

/-- C2: when the raw iteration count reaches maxIterations, the smoothing
block is skipped and the kernel returns exactly maxIterations; getColor
paints any iteration value >= maxIterations black before dispatching on the
scheme. -/
theorem c2_cap_renders_black :
    ∀ (cx cy x y : ℝ) (maxIterations : ℕ) (st : ColorState),
      0 < maxIterations → st.maxIterations = maxIterations →
      smooth maxIterations maxIterations x y = JsFloat.fin (maxIterations : ℝ) ∧
      ((mandelbrotIterate cx cy maxIterations).2.2 = maxIterations →
        mandelbrotCalculate cx cy maxIterations = JsFloat.fin (maxIterations : ℝ)) ∧
      getColor st (maxIterations : ℝ) = (0, 0, 0) := by
  intro cx cy x y maxIterations st hpos hst
  refine ⟨smooth_cap _ _ _ _ (lt_irrefl _), fun hraw => ?_, ?_⟩
  · rw [mandelbrotCalculate, hraw, smooth_cap _ _ _ _ (lt_irrefl _)]
  · exact getColor_interior st _ (by rw [hst])

/-- C2 witness: the point (0,0) stays at the origin forever, so its raw
count is exactly maxIterations = 1 and it renders black. -/
theorem c2_witness :
    (mandelbrotIterate (0 : ℝ) 0 1).2.2 = 1 ∧
    mandelbrotCalculate (0 : ℝ) 0 1 = JsFloat.fin ((1 : ℕ) : ℝ) ∧
    getColor ⟨1, "default", ⟨128, 128, 255⟩, ⟨255, 128, 128⟩, 240, 0, ⟨10, 20, 100⟩,
      ⟨0, 150, 200⟩, ⟨255, 220, 50⟩, ⟨200, 50, 10⟩, 220, 0, -1.5⟩ ((1 : ℕ) : ℝ) =
      (0, 0, 0) := by
  have hraw : (mandelbrotIterate (0 : ℝ) 0 1).2.2 = 1 := by
    simp [mandelbrotIterate, mandelbrotLoop, zero_le_four]
  have h := c2_cap_renders_black 0 0 0 0 1
    ⟨1, "default", ⟨128, 128, 255⟩, ⟨255, 128, 128⟩, 240, 0, ⟨10, 20, 100⟩, ⟨0, 150, 200⟩,
      ⟨255, 220, 50⟩, ⟨200, 50, 10⟩, 220, 0, -1.5⟩ Nat.one_pos rfl
  exact ⟨hraw, h.2.1 hraw, h.2.2⟩

/-- C3: the claim asserts the smoothed count of an escaped point lies in
[0, maxIterations).  At cx = 32, cy = 0, maxIterations = 2 the orbit
escapes after one step with magnitude 1024, and the smoothed count
1 + 1 - log2(log2(1024)) is negative. -/
theorem c3_counterexample :
    mandelbrotCalculate 32 0 2 =
      JsFloat.fin (((1 : ℕ) : ℝ) + 1 -
        Real.log (Real.log ((32 : ℝ) * 32 + 0 * 0) / 2 / Real.log 2) / Real.log 2) ∧
    ((1 : ℕ) : ℝ) + 1 -
        Real.log (Real.log ((32 : ℝ) * 32 + 0 * 0) / 2 / Real.log 2) / Real.log 2 < 0 := by
  have hstate : mandelbrotIterate (32 : ℝ) 0 2 = (32, 0, 1) := by
    norm_num [mandelbrotIterate, mandelbrotLoop]
  constructor
  · rw [mandelbrotCalculate, hstate]
    exact smooth_escaped 1 2 32 0 (by norm_num) (by norm_num)
  · have hlog2 : (0 : ℝ) < Real.log 2 := Real.log_pos (by norm_num)
    have h1024 : ((32 : ℝ) * 32 + 0 * 0) = 2 ^ 10 := by norm_num
    have hlog1024 : Real.log ((32 : ℝ) * 32 + 0 * 0) = 10 * Real.log 2 := by
      rw [h1024, Real.log_pow]
      push_cast
      ring
    have hinner : Real.log ((32 : ℝ) * 32 + 0 * 0) / 2 / Real.log 2 = 5 := by
      rw [hlog1024]
      field_simp
      ring
    rw [hinner]
    have hlog45 : Real.log 4 < Real.log 5 := Real.log_lt_log (by norm_num) (by norm_num)
    have hlog4 : Real.log 4 = 2 * Real.log 2 := by
      rw [show (4 : ℝ) = 2 ^ 2 by norm_num, Real.log_pow]
      push_cast
      ring
    have h2 : 2 < Real.log 5 / Real.log 2 := by
      rw [lt_div_iff hlog2]
      nlinarith
    push_cast
    linarith

/-- C3 (amended): the per-pixel result is either exactly maxIterations or a
finite real strictly below maxIterations; escaped points far from the set
can make it negative, so [0, maxIterations) does not hold. -/
theorem c3_amended :
    ∀ (cx cy : ℝ) (maxIterations : ℕ), 0 < maxIterations →
      mandelbrotCalculate cx cy maxIterations = JsFloat.fin (maxIterations : ℝ) ∨
      ∃ r : ℝ, mandelbrotCalculate cx cy maxIterations = JsFloat.fin r ∧
        r < (maxIterations : ℝ) := by
  intro cx cy maxIterations hpos
  rcases lt_or_eq_of_le (mandelbrotIterate_le cx cy maxIterations) with hlt | heq
  · right
    have hmag := mandelbrotIterate_escape cx cy maxIterations hlt
    rw [mandelbrotCalculate, smooth_escaped _ maxIterations _ _ hlt hmag]
    refine ⟨_, rfl, ?_⟩
    have hnu := smooth_nu_pos _ hmag
    have hle : ((mandelbrotIterate cx cy maxIterations).2.2 : ℝ) + 1 ≤ maxIterations := by
      exact_mod_cast Nat.succ_le_of_lt hlt
    linarith
  · left
    rw [mandelbrotCalculate, heq, smooth_cap _ _ _ _ (lt_irrefl _)]

/-- C3 witness: the amended theorem applied at the interior point (0,0)
with maxIterations 1. -/
theorem c3_witness :
    mandelbrotCalculate (0 : ℝ) 0 1 = JsFloat.fin ((1 : ℕ) : ℝ) ∨
    ∃ r : ℝ, mandelbrotCalculate (0 : ℝ) 0 1 = JsFloat.fin r ∧ r < ((1 : ℕ) : ℝ) :=
  c3_amended 0 0 1 Nat.one_pos

/-- C4: the precision selector chooses arbitrary precision exactly when the
zoom factor strictly exceeds 2^20, with native floats at the boundary
value 2^20 itself; the flag is computed once per render (line 188), before
the pixel loop. -/
theorem c4_needsHighPrecision_boundary :
    (∀ zoomFactor : ℚ, needsHighPrecision zoomFactor = true ↔ 2 ^ 20 < zoomFactor) ∧
    needsHighPrecision (2 ^ 20) = false ∧ needsHighPrecision (2 ^ 20 + 1) = true := by
  refine ⟨fun zoomFactor => ?_, ?_, ?_⟩
  · simp [needsHighPrecision]
  · simp [needsHighPrecision]
  · simp [needsHighPrecision]

/-- C5: the claim asserts all three families offer a caller-selectable
arbitrary-precision kernel.  Only Julia has one: MandelbrotFractal.render's
CPU fallback always iterates with the native kernel — even at zoom 2^21
where the precision selector requires high precision. -/
theorem c5_counterexample :
    needsHighPrecision ((2 : ℚ) ^ 21) = true ∧
    mandelbrotRenderMode false false 100 ((2 : ℚ) ^ 21) = RenderMode.cpuNative := by
  constructor
  · simp [needsHighPrecision]
    norm_num
  · simp [mandelbrotRenderMode]

/-- C5 (amended): only the Julia family has both kernels, and over exact
arithmetic its native and high-precision implementations compute identical
results — same recurrence, same escape test, same smoothing. -/
theorem c5_amended :
    ∀ (zx zy cReal cImag : ℝ) (maxIterations : ℕ),
      juliaCalculate zx zy cReal cImag maxIterations =
        juliaCalculateHighPrecision zx zy cReal cImag maxIterations := by
  intro zx zy cReal cImag maxIterations
  rw [juliaCalculate, juliaCalculateHighPrecision, juliaIterate, juliaHighPrecisionIterate,
    juliaLoop_eq_highPrecision cReal cImag maxIterations maxIterations zx zy 0]

/-- C6: the claim asserts a degraded-capability error when high precision
is required but Decimal is unavailable.  The code instead silently renders
with native floats: at zoom 2^21 with no WebGL and no Decimal the Julia
render computes every pixel with the native kernel and reports no error. -/
theorem c6_counterexample :
    needsHighPrecision ((2 : ℚ) ^ 21) = true ∧
    juliaRenderMode false false false 100 ((2 : ℚ) ^ 21) = RenderMode.cpuNative := by
  constructor
  · simp [needsHighPrecision]
    norm_num
  · simp [juliaRenderMode, webglRender]

/-- C6 (amended): when Decimal is unavailable the Julia render never takes
the high-precision path and never fails — with no GPU it always falls back
to the native-float kernel, whatever the zoom. -/
theorem c6_amended :
    (∀ (webglInitialized programOk : Bool) (maxIterations : ℕ) (zoom : ℚ),
      juliaRenderMode webglInitialized programOk false maxIterations zoom ≠
        RenderMode.cpuHighPrecision) ∧
    (∀ (maxIterations : ℕ) (zoom : ℚ),
      juliaRenderMode false false false maxIterations zoom = RenderMode.cpuNative) := by
  constructor
  · intro webglInitialized programOk maxIterations zoom
    simp only [juliaRenderMode, Bool.and_false]
    split_ifs <;> simp_all
  · intro maxIterations zoom
    simp [juliaRenderMode, webglRender]

/-- C7: the claim asserts the GPU path reports unavailable when
maxIterations > 1000 or when high precision is required.  The code has no
such gate: with an initialized context and a healthy shader program,
WebGLRenderer.render accepts and draws a mandelbrot request with
maxIterations 2000 at zoom 2^21, returning success. -/
theorem c7_counterexample :
    webglRender true true "mandelbrot" 2000 ((2 : ℚ) ^ 21) = true ∧
    1000 < 2000 ∧ needsHighPrecision ((2 : ℚ) ^ 21) = true := by
  refine ⟨by simp [webglRender], by norm_num, ?_⟩
  simp [needsHighPrecision]
  norm_num

/-- C7 (amended): WebGLRenderer.render's availability is decided only by
initialization, family recognition and shader program build — it is
entirely independent of maxIterations and zoom; requests with
maxIterations above 1000 still run on the GPU, silently truncated by the
shader loop's hard 1000-step bound to exactly the behavior of the CPU
kernel capped at min maxIterations 1000. -/
theorem c7_amended :
    (∀ (initialized programOk : Bool) (fractalType : String) (m₁ m₂ : ℕ) (z₁ z₂ : ℚ),
      webglRender initialized programOk fractalType m₁ z₁ =
        webglRender initialized programOk fractalType m₂ z₂) ∧
    (∀ (cx cy : ℝ) (maxIterations : ℕ),
      mandelbrotShaderIterate cx cy maxIterations =
        mandelbrotIterate cx cy (min maxIterations 1000)) := by
  constructor
  · intro initialized programOk fractalType m₁ m₂ z₁ z₂
    rfl
  · intro cx cy maxIterations
    rw [mandelbrotShaderIterate, mandelbrotShaderLoop_eq, Nat.zero_add, mandelbrotIterate]
    have h := mandelbrotLoop_fuel_add cx cy (min maxIterations 1000) (min maxIterations 1000)
      (1000 - min maxIterations 1000) 0 0 0 (by omega)
    rw [show min maxIterations 1000 + (1000 - min maxIterations 1000) = 1000 from by omega] at h
    exact h

/-- C8: the claim asserts an unknown color-scheme identifier is rejected
with an error.  The getColor switch instead silently substitutes the
default polynomial scheme: the unknown identifier "neon" dispatches to the
same method as "default". -/
theorem c8_counterexample :
    "neon" ∉ knownColorSchemes ∧ dispatchColorScheme "neon" = ColorMethod.default ∧
    dispatchColorScheme "neon" = dispatchColorScheme "default" :=
  ⟨by decide, by decide, by decide⟩

/-- C8 (amended): an unknown fractal-family identifier is indeed rejected
with a descriptive error before any pixel computation, but an unknown
color-scheme identifier is never rejected — getColor silently falls back
to the default polynomial scheme. -/
theorem c8_amended :
    (∀ fractalType : String,
      viewerRender fractalType = ViewerRenderOutcome.errorUnknownType ↔
        fractalType ∉ fractalRegistry) ∧
    (∀ scheme : String, scheme ∉ knownColorSchemes →
      dispatchColorScheme scheme = ColorMethod.default) := by
  constructor
  · intro fractalType
    rw [viewerRender]
    split_ifs with h
    · simp [h]
    · simp [h]
  · intro scheme h
    simp only [knownColorSchemes, List.mem_cons, List.not_mem_nil, or_false, not_or] at h
    obtain ⟨h1, h2, h3, h4, h5, h6, h7, h8, h9, h10, h11⟩ := h
    simp [dispatchColorScheme, h1, h2, h3, h4, h5, h6, h7, h8, h9, h10, h11]

/-- C8 witness: the amended statement at the unknown identifier "nova". -/
theorem c8_witness :
    ("nova" ∉ knownColorSchemes ∧ dispatchColorScheme "nova" = ColorMethod.default) ∧
    (viewerRender "nova" = ViewerRenderOutcome.errorUnknownType ↔
      "nova" ∉ fractalRegistry) :=
  ⟨⟨by decide, c8_amended.2 "nova" (by decide)⟩, c8_amended.1 "nova"⟩

/-- C9: the Canvas2D scheduler visits pixels in strictly increasing row
order and, within a row, strictly increasing column order; the sequence of
progress percentages it reports is monotonically non-decreasing and ends
at exactly 100. -/
theorem c9_scheduler_order :
    ∀ width height : ℕ,
      (pixelOrder width height).Pairwise pixelBefore ∧
      (progressTrace height).Chain' (· ≤ ·) ∧
      (progressTrace height).getLast? = some 100 := by
  intro width height
  refine ⟨?_, ?_, ?_⟩
  · rw [pixelOrder, List.pairwise_flatMap]
    constructor
    · intro py hpy
      rw [List.pairwise_map]
      exact (List.pairwise_lt_range width).imp fun hab => Or.inr ⟨rfl, hab⟩
    · apply (List.pairwise_lt_range height).imp
      intro a b hab x hx y hy
      obtain ⟨px, _, rfl⟩ := List.mem_map.mp hx
      obtain ⟨px', _, rfl⟩ := List.mem_map.mp hy
      exact Or.inl hab
  · apply List.Pairwise.chain'
    rw [progressTrace]
    apply List.pairwise_append.mpr
    refine ⟨?_, List.pairwise_singleton _ _, ?_⟩
    · refine List.pairwise_map.mpr (((List.pairwise_lt_range height).filter _).imp ?_)
      intro a b hab
      have hcast : (a : ℚ) ≤ (b : ℚ) := by exact_mod_cast hab.le
      have hh : (0 : ℚ) ≤ ((height : ℚ))⁻¹ := by positivity
      rw [div_eq_mul_inv, div_eq_mul_inv]
      exact mul_le_mul_of_nonneg_right (mul_le_mul_of_nonneg_right hcast hh) (by norm_num)
    · intro a ha b hb
      rw [List.mem_singleton] at hb
      subst hb
      obtain ⟨py, hpy, rfl⟩ := List.mem_map.mp ha
      have hlt : py < height := List.mem_range.mp (List.mem_of_mem_filter hpy)
      have hh : (0 : ℚ) < (height : ℚ) := by exact_mod_cast Nat.zero_lt_of_lt hlt
      have hdiv : (py : ℚ) / height ≤ 1 := (div_le_one hh).mpr (by exact_mod_cast hlt.le)
      nlinarith
  · rw [progressTrace]
    simp [List.getLast?_concat]

/-- C10: the Burning Ship and Mandelbrot kernels disagree on the point
(-1, 1/2) at maxIterations 4: the Mandelbrot orbit is still bounded after
4 steps (raw count 4, smoothed result exactly 4), while the abs-folded
Burning Ship orbit escapes at raw count 3 (smoothed result strictly
below 4). -/
theorem c10_divergence :
    mandelbrotCalculate (-1) (1 / 2) 4 ≠ burningShipCalculate (-1) (1 / 2) 4 := by
  have hm : (mandelbrotIterate (-1 : ℝ) (1 / 2) 4).2.2 = 4 := by
    norm_num [mandelbrotIterate, mandelbrotLoop]
  have hb : (burningShipIterate (-1 : ℝ) (1 / 2) 4).2.2 = 3 := by
    norm_num [burningShipIterate, burningShipLoop, abs_of_nonneg, abs_of_nonpos]
  have hmag := burningShipIterate_escape (-1 : ℝ) (1 / 2) 4 (by rw [hb]; norm_num)
  have hnu := smooth_nu_pos _ hmag
  rw [mandelbrotCalculate, burningShipCalculate, hm, hb,
    smooth_cap 4 4 _ _ (lt_irrefl 4), smooth_escaped 3 4 _ _ (by norm_num) hmag]
  intro h
  rw [JsFloat.fin.injEq] at h
  push_cast at h
  linarith
